import Mathlib

/-!
Verification of the AI terminal assistant (`gemini_helper.py`).

The repository is a single Python file with three core operations:

* `generate_command` (the spec's CommandSynthesizer): asks the language-model
  backend for a JSON object and parses the reply, with a bracket-extraction
  fallback and a canonical fallback dictionary on failure;
* `execute_command` (the spec's Executor): runs a shell command and maps the
  subprocess outcome to a single output string;
* `process_query` (the spec's QueryOrchestrator): presents the suggestion and
  gates execution on the user's confirmation answer.

Embedding conventions:

* The language-model backend is external; a call is modelled by its outcome,
  `Except String String` (an exception message, or the reply text).
* Python's `json.loads` is external library code; it is modelled by a
  parameter `loads : String → Except String Json` (decode-error message, or
  the decoded value).  The `Json` type below covers every value `json.loads`
  can produce.
* `subprocess.run` is external; a call is modelled by its outcome,
  `SubprocessOutcome` (completion with exit code, stdout and stderr, or a
  raised exception).
* Python `str.strip`, `str.lower` and truthiness are modelled by `pyStrip`,
  `pyLower` and `truthy` over ASCII text.
* Console output and the points where the Python code would raise are made
  observable: `process_query` returns `Except String (List Event)`, the list
  of presentation events in order, or the message of an escaping exception.
  Purely decorative prints (spinners, panel borders, the error print inside
  `generate_command`) are not modelled as events.
-/

/-- A JSON value, as returned by the external JSON decoder. -/
inductive Json where
  | null : Json
  | bool : Bool → Json
  | num : Int → Json
  | str : String → Json
  | arr : List Json → Json
  | obj : List (String × Json) → Json

/-- Dictionary lookup, `d.get(k)` on the decoded object. -/
def jlookup (fields : List (String × Json)) (k : String) : Option Json :=
  match fields with
  | [] => none
  | p :: rest => if p.1 = k then some p.2 else jlookup rest k

/-- Python truthiness of a JSON value (`if not x` tests). -/
def truthy : Json → Bool
  | Json.null => false
  | Json.bool b => b
  | Json.num n => if n = 0 then false else true
  | Json.str s => if s = "" then false else true
  | Json.arr xs => if xs.isEmpty then false else true
  | Json.obj fs => if fs.isEmpty then false else true

/-- Python `str.strip()` (ASCII whitespace), modelled over the character
list so that it evaluates by kernel reduction. -/
def pyStrip (s : String) : String :=
  String.mk (((s.data.dropWhile Char.isWhitespace).reverse.dropWhile
    Char.isWhitespace).reverse)

/-- Python `str.lower()` (ASCII), modelled over the character list. -/
def pyLower (s : String) : String :=
  String.mk (s.data.map Char.toLower)

/-- Drop characters until the first occurrence of `c`; return the suffix
starting at that occurrence, or `none` when `c` does not occur. -/
def dropUntil (c : Char) : List Char → Option (List Char)
  | [] => none
  | x :: xs => if x = c then some (x :: xs) else dropUntil c xs

/-- The source's `re.search` of a greedy brace-delimited pattern with the
dot-matches-all flag: the substring from the first opening brace to the last
closing brace, provided some closing brace follows the first opening one. -/
def extractBraces (s : String) : Option String :=
  (dropUntil '\x7b' s.data).bind (fun tail =>
    (dropUntil '\x7d' tail.reverse).map (fun rts => String.mk rts.reverse))

/-- The fallback dictionary returned by `generate_command` when the backend
call raised or the reply could not be parsed; `msg` is `str(e)` for the
exception in flight. -/
def fallbackResponse (msg : String) : Json :=
  Json.obj [("command", Json.str ""),
            ("explanation", Json.str ("Failed to process request: " ++ msg)),
            ("safe", Json.bool false),
            ("warning", Json.str "Unable to generate a proper response")]

/-- `generate_command` from the source: strip the reply, try a full decode,
then a decode of the brace-extracted substring, and fall back on any
failure.  `backend` is the outcome of the backend call, `loads` the external
JSON decoder. -/
def generate_command (loads : String → Except String Json)
    (backend : Except String String) : Json :=
  match backend with
  | Except.error e => fallbackResponse e
  | Except.ok text =>
    let t := pyStrip text
    match loads t with
    | Except.ok result => result
    | Except.error _ =>
      match extractBraces t with
      | some sub =>
        match loads sub with
        | Except.ok result => result
        | Except.error e2 => fallbackResponse e2
      | none => fallbackResponse "Could not parse JSON response"

/-- Outcome of the external `subprocess.run` call. -/
inductive SubprocessOutcome where
  | completed : Int → String → String → SubprocessOutcome
  | raised : String → SubprocessOutcome

/-- `execute_command` from the source: exit code 0 maps to the captured
stdout, a non-zero exit code to a formatted string with the code and the
captured stderr, and a raised launch failure to a failure description. -/
def execute_command (run : String → SubprocessOutcome) (command : String) :
    String :=
  match run command with
  | SubprocessOutcome.completed rc out err =>
    if rc = 0 then out
    else "Error (code " ++ toString rc ++ "):\n" ++ err
  | SubprocessOutcome.raised e => "Failed to execute command: " ++ e

/-- The spec's `CommandSuggestion` record. -/
structure CommandSuggestion where
  command : String
  explanation : String
  safe : Bool
  warning : Option String

/-- Read a string out of a JSON value. -/
def asString : Json → Option String
  | Json.str s => some s
  | _ => none

/-- The `CommandSuggestion` view of a decoded reply, following the access
patterns of `process_query`: `result["command"]`, `result["explanation"]`,
`result.get("safe", True)` read for truthiness, and `result.get("warning")`.
Returns `none` when the value is not a dictionary with string command and
explanation. -/
def toSuggestion (j : Json) : Option CommandSuggestion :=
  match j with
  | Json.obj fields =>
    match jlookup fields "command", jlookup fields "explanation" with
    | some (Json.str c), some (Json.str e) =>
      some { command := c, explanation := e,
             safe := truthy ((jlookup fields "safe").getD (Json.bool true)),
             warning := (jlookup fields "warning").bind asString }
    | _, _ => none
  | _ => none

/-- An observable presentation step of `process_query`, in the order the
source prints it. -/
inductive Event where
  | processing : Event
  | failNotice : Event
  | showCommand : String → Event
  | showExplanation : String → Event
  | safetyWarning : String → Event
  | confirmPrompt : Event
  | executingNote : Event
  | executed : String → Event
  | showOutput : String → Event
  | noOutputNote : Event
  | cancelled : Event

/-- The warning text `process_query` substitutes when the decoded reply is
flagged unsafe but carries no warning of its own. -/
def defaultWarning : String :=
  "This command might be destructive or have unintended consequences."

/-- The events of the confirmed branch: the executing note, the Executor
call on the suggested command, then the output panel or the no-output
notice depending on whether the stripped output is empty. -/
def execTrace (run : String → SubprocessOutcome) (c : String) : List Event :=
  let out := execute_command run c
  [Event.executingNote, Event.executed c]
    ++ (if pyStrip out = "" then [Event.noOutputNote]
        else [Event.showOutput out])

/-- The confirmation-gate events, shared by both display paths: the
prompt, then on the affirmative token the executing trace, otherwise the
cancellation notice. -/
def gateEvents (confirm : String) (run : String → SubprocessOutcome)
    (c : String) : List Event :=
  Event.confirmPrompt
    :: (if pyLower confirm = "y" then execTrace run c
        else [Event.cancelled])

/-- The presentation phase of `process_query`, applied to the value
`generate_command` returned.  A `result` that is not a dictionary makes
`result.get("command")` raise; a truthy but non-string command, a missing
or non-string explanation, or — when the safe value is falsy — a displayed
warning value that is not a string make the rich rendering calls raise,
before the confirmation prompt is ever shown — these escaping exceptions
are the `Except.error` cases. -/
def present (result : Json) (confirm : String)
    (run : String → SubprocessOutcome) : Except String (List Event) :=
  match result with
  | Json.obj fields =>
    match jlookup fields "command" with
    | none => Except.ok [Event.processing, Event.failNotice]
    | some cv =>
      if truthy cv = false then Except.ok [Event.processing, Event.failNotice]
      else
        match cv with
        | Json.str c =>
          match jlookup fields "explanation" with
          | some (Json.str e) =>
            if truthy ((jlookup fields "safe").getD (Json.bool true)) then
              Except.ok ([Event.processing, Event.showCommand c,
                  Event.showExplanation e] ++ gateEvents confirm run c)
            else
              match (jlookup fields "warning").getD
                  (Json.str defaultWarning) with
              | Json.str w =>
                Except.ok ([Event.processing, Event.showCommand c,
                    Event.showExplanation e, Event.safetyWarning w]
                  ++ gateEvents confirm run c)
              | _ => Except.error "warning is not renderable text"
          | some _ => Except.error "explanation is not renderable text"
          | none => Except.error "KeyError: explanation"
        | _ => Except.error "command is not renderable text"
  | _ => Except.error "AttributeError: result has no attribute get"

/-- `process_query` from the source: synthesize, then present and gate
execution on the confirmation answer.  `confirm` is the text the user types
at the confirmation prompt. -/
def process_query (loads : String → Except String Json)
    (backend : Except String String) (confirm : String)
    (run : String → SubprocessOutcome) : Except String (List Event) :=
  present (generate_command loads backend) confirm run

/-- Whether an event is an Executor invocation. -/
def isExec : Event → Bool
  | Event.executed _ => true
  | _ => false

/-- Whether an event is the confirmation prompt. -/
def isPrompt : Event → Bool
  | Event.confirmPrompt => true
  | _ => false

/-- What one iteration of the interactive loop in `main` does with the text
the user typed: exit the loop on an exit token, silently skip the iteration
(no synthesis, no backend call, no output) when the stripped text is empty,
and otherwise process the query. -/
inductive LoopAction where
  | exitLoop : LoopAction
  | skip : LoopAction
  | process : String → LoopAction

/-- One iteration of the interactive loop in `main`: the exit-token test on
the lowercased text comes first, then the emptiness test on the stripped
text, then `process_query`. -/
def main_loop_step (query : String) : LoopAction :=
  if pyLower query = "exit" ∨ pyLower query = "quit" ∨ pyLower query = "q"
  then LoopAction.exitLoop
  else if pyStrip query = "" then LoopAction.skip
  else LoopAction.process query

/-- `sub` occurs at the head of `l`. -/
def leadsWith : List Char → List Char → Bool
  | [], _ => true
  | _ :: _, [] => false
  | a :: as, b :: bs => a == b && leadsWith as bs

/-- `sub` occurs somewhere in `l`. -/
def occursIn (sub : List Char) : List Char → Bool
  | [] => sub.isEmpty
  | b :: bs => leadsWith sub (b :: bs) || occursIn sub bs

/-- `sub` is a contiguous substring of `s`. -/
def strContains (s sub : String) : Bool :=
  occursIn sub.data s.data

/-- Whether a JSON value is a dictionary (a Python `dict`). -/
def isDict : Json → Bool
  | Json.obj _ => true
  | _ => false

/-! Concrete instantiations of the external collaborators, used to
evaluate the theorems below on closed inputs. -/

/-- A decoded reply with a non-empty command and an explanation, and with
neither a `safe` nor a `warning` key. -/
def demoFields : List (String × Json) :=
  [("command", Json.str "ls -la"), ("explanation", Json.str "Lists files.")]

/-- A decoder that recognises exactly the reply text `RAW`. -/
def demoLoads : String → Except String Json :=
  fun s => if s = "RAW" then Except.ok (Json.obj demoFields)
           else Except.error "Expecting value"

/-- A decoded reply whose command is the empty string. -/
def emptyCmdFields : List (String × Json) :=
  [("command", Json.str ""), ("explanation", Json.str "nothing")]

/-- A decoder that decodes every reply to the empty-command dictionary. -/
def emptyCmdLoads : String → Except String Json :=
  fun _ => Except.ok (Json.obj emptyCmdFields)

/-- A decoder that fails on every input. -/
def emptyLoads : String → Except String Json :=
  fun _ => Except.error "Expecting value"

/-- A decoder that decodes exactly the text `42` to the JSON number 42,
as the real JSON decoder does. -/
def loads42 : String → Except String Json :=
  fun s => if s = "42" then Except.ok (Json.num 42)
           else Except.error "Expecting value"

/-- The brace-delimited object text of the demo reply used for the
bracket-extraction claim. -/
def demoObjText : String :=
  String.mk ('\x7b' :: "\"command\": \"pwd\"".data ++ ['\x7d'])

/-- A decoder that recognises exactly the demo object text. -/
def bracedLoads : String → Except String Json :=
  fun s => if s = demoObjText
           then Except.ok (Json.obj [("command", Json.str "pwd"),
             ("explanation", Json.str "Prints the working directory.")])
           else Except.error "Expecting value"

/-- A subprocess model: `exit 3` completes with exit code 3 and empty
streams, everything else succeeds with some stdout. -/
def demoRun : String → SubprocessOutcome :=
  fun cmd => if cmd = "exit 3" then SubprocessOutcome.completed 3 "" ""
             else SubprocessOutcome.completed 0 "total 0\n" ""

/-- The character list of an appended string is the appended character
lists. -/
theorem string_data_append (a b : String) : (a ++ b).data = a.data ++ b.data := by
  cases a
  cases b
  rfl

/-- String append is associative. -/
theorem string_append_assoc (a b c : String) :
    (a ++ b) ++ c = a ++ (b ++ c) := by
  apply String.ext
  rw [string_data_append, string_data_append, string_data_append,
    string_data_append]
  exact List.append_assoc _ _ _

/-- `sub` leads every list of the form `sub ++ rest`. -/
theorem leadsWith_self_append (sub rest : List Char) :
    leadsWith sub (sub ++ rest) = true := by
  induction sub with
  | nil => rfl
  | cons a as ih => simp [leadsWith, ih]

theorem occursIn_nil_left (l : List Char) : occursIn [] l = true := by
  cases l with
  | nil => rfl
  | cons b bs => simp [occursIn, leadsWith]

/-- `sub` occurs in every list of the form `pre ++ sub ++ rest`. -/
theorem occursIn_append (sub pre rest : List Char) :
    occursIn sub (pre ++ sub ++ rest) = true := by
  induction pre with
  | nil =>
    cases sub with
    | nil => simpa using occursIn_nil_left rest
    | cons s ss =>
      simp only [List.nil_append, List.cons_append, occursIn,
        Bool.or_eq_true]
      exact Or.inl (by simpa using leadsWith_self_append (s :: ss) rest)
  | cons x xs ih =>
    simp only [List.cons_append, occursIn, Bool.or_eq_true]
    exact Or.inr (by simpa [List.append_assoc] using ih)

/-- A string of the form `a ++ sub ++ b` contains `sub`. -/
theorem strContains_append (a sub b : String) :
    strContains (a ++ sub ++ b) sub = true := by
  unfold strContains
  rw [string_data_append, string_data_append]
  exact occursIn_append sub.data a.data b.data

theorem dropUntil_append_of_not_mem (c : Char) (pre rest : List Char)
    (h : c ∉ pre) : dropUntil c (pre ++ rest) = dropUntil c rest := by
  induction pre with
  | nil => rfl
  | cons x xs ih =>
    have hx : ¬ x = c := fun hx => h (hx ▸ List.mem_cons_self _ _)
    simp only [List.cons_append, dropUntil, if_neg hx]
    exact ih (fun hm => h (List.mem_cons_of_mem _ hm))

theorem dropUntil_cons_self (c : Char) (rest : List Char) :
    dropUntil c (c :: rest) = some (c :: rest) := by
  simp [dropUntil]

theorem dropUntil_first (c : Char) (pre rest : List Char) (h : c ∉ pre) :
    dropUntil c (pre ++ c :: rest) = some (c :: rest) := by
  rw [dropUntil_append_of_not_mem _ _ _ h, dropUntil_cons_self]

/-- Bracket extraction on a reply made of brace-free text around a
brace-delimited object recovers exactly the object. -/
theorem extractBraces_embed (pre suf : String) (mid : List Char)
    (hpre : '\x7b' ∉ pre.data) (hsuf : '\x7d' ∉ suf.data) :
    extractBraces (pre ++ String.mk ('\x7b' :: mid ++ ['\x7d']) ++ suf) =
      some (String.mk ('\x7b' :: mid ++ ['\x7d'])) := by
  have h1 : (pre ++ String.mk ('\x7b' :: mid ++ ['\x7d']) ++ suf).data
      = pre.data ++ '\x7b' :: (mid ++ '\x7d' :: suf.data) := by
    rw [string_data_append, string_data_append]
    simp
  have h2 : ('\x7b' :: (mid ++ '\x7d' :: suf.data)).reverse
      = suf.data.reverse ++ '\x7d' :: (mid.reverse ++ ['\x7b']) := by
    simp
  have hsuf2 : '\x7d' ∉ suf.data.reverse := by
    simpa using hsuf
  have h3 : ('\x7d' :: (mid.reverse ++ ['\x7b'])).reverse
      = '\x7b' :: mid ++ ['\x7d'] := by
    simp
  unfold extractBraces
  rw [h1, dropUntil_first _ _ _ hpre, Option.some_bind, h2,
    dropUntil_first _ _ _ hsuf2, Option.map_some', h3]

/-- Presentation of a decoded dictionary whose command is a non-empty
string, whose explanation is a string and whose displayed warning value is
a string: the full ordered event list. -/
theorem present_nonempty (fields : List (String × Json)) (confirm : String)
    (run : String → SubprocessOutcome) (c e w : String)
    (h2 : jlookup fields "command" = some (Json.str c)) (h3 : c ≠ "")
    (h4 : jlookup fields "explanation" = some (Json.str e))
    (hw : (jlookup fields "warning").getD (Json.str defaultWarning)
      = Json.str w) :
    present (Json.obj fields) confirm run =
      Except.ok ([Event.processing, Event.showCommand c,
          Event.showExplanation e]
        ++ (if truthy ((jlookup fields "safe").getD (Json.bool true)) then []
            else [Event.safetyWarning w])
        ++ gateEvents confirm run c) := by
  have hct : truthy (Json.str c) = true := by
    simp [truthy, h3]
  by_cases hs : truthy ((jlookup fields "safe").getD (Json.bool true)) = true
  · simp [present, h2, h4, hct, hs]
  · simp [present, h2, h4, hct, hs, hw]

/-- Presentation of a decoded dictionary whose command is falsy: the
failure notice, and nothing else. -/
theorem present_falsy (fields : List (String × Json)) (confirm : String)
    (run : String → SubprocessOutcome) (cv : Json)
    (h2 : jlookup fields "command" = some cv) (h3 : truthy cv = false) :
    present (Json.obj fields) confirm run =
      Except.ok [Event.processing, Event.failNotice] := by
  simp [present, h2, h3]

/-- The Executor invocations among the presentation events of a non-empty
suggestion: exactly one, with the unmodified command, when the lowercased
answer is the affirmative token, and none otherwise, in which case the
cancellation notice is present. -/
theorem present_gate (fields : List (String × Json)) (confirm : String)
    (run : String → SubprocessOutcome) (c e w : String)
    (h2 : jlookup fields "command" = some (Json.str c)) (h3 : c ≠ "")
    (h4 : jlookup fields "explanation" = some (Json.str e))
    (hw : (jlookup fields "warning").getD (Json.str defaultWarning)
      = Json.str w) :
    ∃ evs, present (Json.obj fields) confirm run = Except.ok evs ∧
      evs.filter isExec
        = (if pyLower confirm = "y" then [Event.executed c] else []) ∧
      (¬ pyLower confirm = "y" → Event.cancelled ∈ evs) := by
  refine ⟨_, present_nonempty fields confirm run c e w h2 h3 h4 hw, ?_, ?_⟩
  · by_cases hy : pyLower confirm = "y" <;>
      by_cases hs : truthy ((jlookup fields "safe").getD (Json.bool true))
        = true <;>
      by_cases ho : pyStrip (execute_command run c) = "" <;>
      simp [hy, hs, ho, execTrace, gateEvents, List.filter_append, isExec]
  · intro hn
    by_cases hs : truthy ((jlookup fields "safe").getD (Json.bool true))
      = true <;>
      simp [hn, hs, gateEvents]

example : pyStrip "  ab c  " = "ab c" := rfl
example : pyLower "YeS" = "yes" := rfl
example : extractBraces "pre \x7ba\x7d post" = some "\x7ba\x7d" := rfl
example : extractBraces "no braces" = none := rfl
example : extractBraces "\x7d only close \x7d x" = none := rfl
example : execute_command (fun _ => SubprocessOutcome.completed 3 "" "boom")
    "c" = "Error (code 3):\nboom" := rfl

/-- Claim C1: in `process_query`, for every suggestion with a non-empty
command (a string command and explanation, and a warning that reads back
as a string when displayed — the suggestion data model's warning is an
optional string), the Executor is invoked if and only if the user's
confirmation answer is affirmative (its lowercasing is the affirmative
token), and when invoked it is invoked exactly once with the suggested
command string unmodified; the `safe` entry of the decoded reply is
universally quantified here and never blocks or permits execution, and any
non-affirmative answer produces the cancellation notice with no
execution. -/
theorem confirmation_gate
    (loads : String → Except String Json) (backend : Except String String)
    (confirm : String) (run : String → SubprocessOutcome)
    (fields : List (String × Json)) (c e w : String)
    (h1 : generate_command loads backend = Json.obj fields)
    (h2 : jlookup fields "command" = some (Json.str c)) (h3 : c ≠ "")
    (h4 : jlookup fields "explanation" = some (Json.str e))
    (hw : (jlookup fields "warning").getD (Json.str defaultWarning)
      = Json.str w) :
    ∃ evs, process_query loads backend confirm run = Except.ok evs ∧
      (pyLower confirm = "y" → evs.filter isExec = [Event.executed c]) ∧
      (¬ pyLower confirm = "y" →
        evs.filter isExec = [] ∧ Event.cancelled ∈ evs) := by
  obtain ⟨evs, hp, hf, hc⟩ := present_gate fields confirm run c e w h2 h3 h4 hw
  refine ⟨evs, ?_, ?_, ?_⟩
  · unfold process_query
    rw [h1]
    exact hp
  · intro hy
    rw [hf, if_pos hy]
  · intro hn
    exact ⟨by rw [hf, if_neg hn], hc hn⟩

/-- Claim C1 witness: with a concrete decoder, reply, subprocess model and
the answer `y`, the Executor events are exactly one invocation of the
suggested command. -/
theorem confirmation_gate_witness :
    (process_query demoLoads (Except.ok "RAW") "y" demoRun).map
      (fun evs => evs.filter isExec)
        = Except.ok [Event.executed "ls -la"] := by
  obtain ⟨evs, hp, hy, hn⟩ := confirmation_gate demoLoads
    (Except.ok "RAW") "y" demoRun demoFields "ls -la" "Lists files."
    defaultWarning rfl rfl (by decide) rfl rfl
  rw [hp]
  simp only [Except.map]
  rw [hy rfl]

/-- Claim C2: a suggestion whose command is the empty string yields the
failure notice and nothing else: no confirmation prompt, no Executor
invocation, straight return. -/
theorem empty_command_fails_fast
    (loads : String → Except String Json) (backend : Except String String)
    (confirm : String) (run : String → SubprocessOutcome)
    (fields : List (String × Json))
    (h1 : generate_command loads backend = Json.obj fields)
    (h2 : jlookup fields "command" = some (Json.str "")) :
    process_query loads backend confirm run
        = Except.ok [Event.processing, Event.failNotice] ∧
      [Event.processing, Event.failNotice].filter isPrompt = [] ∧
      [Event.processing, Event.failNotice].filter isExec = [] := by
  refine ⟨?_, rfl, rfl⟩
  unfold process_query
  rw [h1]
  exact present_falsy fields confirm run (Json.str "") h2 rfl

/-- Claim C2 witness: a concrete decoder that produces an empty command
makes `process_query` print the failure notice and stop. -/
theorem empty_command_fails_fast_witness :
    process_query emptyCmdLoads (Except.ok "z") "y" demoRun
        = Except.ok [Event.processing, Event.failNotice] ∧
      [Event.processing, Event.failNotice].filter isPrompt = [] ∧
      [Event.processing, Event.failNotice].filter isExec = [] :=
  empty_command_fails_fast emptyCmdLoads (Except.ok "z") "y" demoRun
    emptyCmdFields rfl rfl

/-- Claim C9 (implicit): the affirmative confirmation token is exactly the
single character `y` after lowercasing the answer: for every suggestion
with a non-empty string command, a string explanation and a warning that
reads back as a string when displayed, the Executor is invoked exactly
once precisely when the lowercased answer equals `y`, so `Y` triggers
execution while any other answer, including `yes` and `YES`, cancels with
no invocation. -/
theorem affirmative_token_exactly_y
    (loads : String → Except String Json) (backend : Except String String)
    (confirm : String) (run : String → SubprocessOutcome)
    (fields : List (String × Json)) (c e w : String)
    (h1 : generate_command loads backend = Json.obj fields)
    (h2 : jlookup fields "command" = some (Json.str c)) (h3 : c ≠ "")
    (h4 : jlookup fields "explanation" = some (Json.str e))
    (hw : (jlookup fields "warning").getD (Json.str defaultWarning)
      = Json.str w) :
    ∃ evs, process_query loads backend confirm run = Except.ok evs ∧
      ((evs.filter isExec).length = 1 ↔ pyLower confirm = "y") ∧
      (¬ pyLower confirm = "y" →
        (evs.filter isExec).length = 0 ∧ Event.cancelled ∈ evs) := by
  obtain ⟨evs, hp, hf, hc⟩ := present_gate fields confirm run c e w h2 h3 h4 hw
  refine ⟨evs, ?_, ?_, ?_⟩
  · unfold process_query
    rw [h1]
    exact hp
  · constructor
    · intro hl
      by_contra hn
      rw [hf, if_neg hn] at hl
      simp at hl
    · intro hy
      rw [hf, if_pos hy]
      rfl
  · intro hn
    exact ⟨by rw [hf, if_neg hn]; rfl, hc hn⟩

/-- Claim C9 witness: the answer `Y` lowercases to the affirmative token
and yields exactly one Executor invocation, while `yes` yields none. -/
theorem affirmative_token_exactly_y_witness :
    (process_query demoLoads (Except.ok "RAW") "Y" demoRun).map
      (fun evs => (evs.filter isExec).length) = Except.ok 1 ∧
    (process_query demoLoads (Except.ok "RAW") "yes" demoRun).map
      (fun evs => (evs.filter isExec).length) = Except.ok 0 := by
  constructor
  · obtain ⟨evs, hp, hiff, hn⟩ := affirmative_token_exactly_y demoLoads
      (Except.ok "RAW") "Y" demoRun demoFields "ls -la" "Lists files."
      defaultWarning rfl rfl (by decide) rfl rfl
    rw [hp]
    simp only [Except.map]
    rw [hiff.mpr (by decide)]
  · obtain ⟨evs, hp, hiff, hn⟩ := affirmative_token_exactly_y demoLoads
      (Except.ok "RAW") "yes" demoRun demoFields "ls -la" "Lists files."
      defaultWarning rfl rfl (by decide) rfl rfl
    rw [hp]
    simp only [Except.map]
    rw [(hn (by decide)).1]

/-- Claim C3: every backend reply with no parseable object even after
bracket extraction, and every raising backend call, makes
`generate_command` return the fallback suggestion: empty command, safe
false, an explanation containing a description of the failure, and the
warning that the response could not be used. -/
theorem fallback_on_failure (loads : String → Except String Json)
    (reply msg e1 sub e2 : String) :
    (generate_command loads (Except.error msg)
        = Json.obj [("command", Json.str ""),
            ("explanation", Json.str ("Failed to process request: " ++ msg)),
            ("safe", Json.bool false),
            ("warning", Json.str "Unable to generate a proper response")]) ∧
    (loads (pyStrip reply) = Except.error e1 →
      extractBraces (pyStrip reply) = none →
      generate_command loads (Except.ok reply)
        = Json.obj [("command", Json.str ""),
            ("explanation", Json.str ("Failed to process request: "
              ++ "Could not parse JSON response")),
            ("safe", Json.bool false),
            ("warning", Json.str "Unable to generate a proper response")]) ∧
    (loads (pyStrip reply) = Except.error e1 →
      extractBraces (pyStrip reply) = some sub →
      loads sub = Except.error e2 →
      generate_command loads (Except.ok reply)
        = Json.obj [("command", Json.str ""),
            ("explanation", Json.str ("Failed to process request: " ++ e2)),
            ("safe", Json.bool false),
            ("warning", Json.str "Unable to generate a proper response")]) := by
  refine ⟨rfl, ?_, ?_⟩
  · intro hfull hext
    simp [generate_command, hfull, hext, fallbackResponse]
  · intro hfull hext hsub
    simp [generate_command, hfull, hext, hsub, fallbackResponse]

/-- Claim C3 witness: the fallback dictionary on a raising backend call, on
a reply with no braces, and on a reply whose extracted braces still fail to
decode. -/
theorem fallback_on_failure_witness :
    generate_command emptyLoads (Except.error "boom")
        = Json.obj [("command", Json.str ""),
            ("explanation", Json.str ("Failed to process request: " ++ "boom")),
            ("safe", Json.bool false),
            ("warning", Json.str "Unable to generate a proper response")] ∧
    generate_command emptyLoads (Except.ok "no braces here")
        = Json.obj [("command", Json.str ""),
            ("explanation", Json.str ("Failed to process request: "
              ++ "Could not parse JSON response")),
            ("safe", Json.bool false),
            ("warning", Json.str "Unable to generate a proper response")] ∧
    generate_command emptyLoads (Except.ok "say \x7bnot json\x7d now")
        = Json.obj [("command", Json.str ""),
            ("explanation", Json.str ("Failed to process request: "
              ++ "Expecting value")),
            ("safe", Json.bool false),
            ("warning", Json.str "Unable to generate a proper response")] :=
  ⟨(fallback_on_failure emptyLoads "no braces here" "boom" "x" "s" "y").1,
   (fallback_on_failure emptyLoads "no braces here" "boom"
     "Expecting value" "s" "y").2.1 rfl rfl,
   (fallback_on_failure emptyLoads "say \x7bnot json\x7d now" "boom"
     "Expecting value" "\x7bnot json\x7d" "Expecting value").2.2 rfl rfl rfl⟩

/-- Claim C4: for every command string and every subprocess outcome,
`execute_command` returns a result string and never raises: the result is
the captured stdout on exit code 0, the formatted error string on a
non-zero exit code, and the failure description on a launch failure. -/
theorem execute_never_raises (run : String → SubprocessOutcome)
    (command : String) :
    (∃ out err, run command = SubprocessOutcome.completed 0 out err ∧
      execute_command run command = out) ∨
    (∃ rc out err, run command = SubprocessOutcome.completed rc out err ∧
      rc ≠ 0 ∧ execute_command run command
        = "Error (code " ++ toString rc ++ "):\n" ++ err) ∨
    (∃ e, run command = SubprocessOutcome.raised e ∧
      execute_command run command = "Failed to execute command: " ++ e) := by
  cases h : run command with
  | completed rc out err =>
    by_cases hrc : rc = 0
    · subst hrc
      exact Or.inl ⟨out, err, rfl, by simp [execute_command, h]⟩
    · exact Or.inr (Or.inl ⟨rc, out, err, rfl, hrc,
        by simp [execute_command, h, hrc]⟩)
  | raised e =>
    exact Or.inr (Or.inr ⟨e, rfl, by simp [execute_command, h]⟩)

/-- Claim C5: the outcome mapping of `execute_command`: exit code 0 gives
exactly the captured stdout (possibly empty, nothing added); a non-zero
exit code gives the formatted string containing the exit code and the
captured stderr, with no dependence on the captured stdout; and the
`exit 3` case gives an output containing the substring `3` and no
standard-output text. -/
theorem execute_outcome_mapping :
    (∀ (run : String → SubprocessOutcome) (cmd : String) (rc : Int)
      (out err : String),
      run cmd = SubprocessOutcome.completed rc out err → rc = 0 →
      execute_command run cmd = out) ∧
    (∀ (run : String → SubprocessOutcome) (cmd : String) (rc : Int)
      (out err : String),
      run cmd = SubprocessOutcome.completed rc out err → rc ≠ 0 →
      execute_command run cmd
          = "Error (code " ++ toString rc ++ "):\n" ++ err ∧
        strContains (execute_command run cmd) (toString rc) = true ∧
        strContains (execute_command run cmd) err = true ∧
        (∀ (run2 : String → SubprocessOutcome) (out2 : String),
          run2 cmd = SubprocessOutcome.completed rc out2 err →
          execute_command run2 cmd = execute_command run cmd)) ∧
    (∀ run : String → SubprocessOutcome,
      run "exit 3" = SubprocessOutcome.completed 3 "" "" →
      execute_command run "exit 3" = "Error (code 3):\n" ∧
      strContains (execute_command run "exit 3") "3" = true) := by
  refine ⟨?_, ?_, ?_⟩
  · intro run cmd rc out err h hrc
    subst hrc
    simp [execute_command, h]
  · intro run cmd rc out err h hrc
    have he : execute_command run cmd
        = "Error (code " ++ toString rc ++ "):\n" ++ err := by
      simp [execute_command, h, hrc]
    refine ⟨he, ?_, ?_, ?_⟩
    · rw [he, string_append_assoc]
      exact strContains_append "Error (code " (toString rc) ("):\n" ++ err)
    · rw [he]
      have h2 : ("Error (code " ++ toString rc ++ "):\n") ++ err
          = ("Error (code " ++ toString rc ++ "):\n") ++ err ++ "" := by
        apply String.ext
        rw [string_data_append, string_data_append, string_data_append]
        simp
      rw [h2]
      exact strContains_append ("Error (code " ++ toString rc ++ "):\n")
        err ""
    · intro run2 out2 h2
      simp [execute_command, h, h2, hrc]
  · intro run h
    have he : execute_command run "exit 3" = "Error (code 3):\n" := by
      simp [execute_command, h]
      decide
    refine ⟨he, ?_⟩
    rw [he]
    decide

/-- Claim C5 witness: the concrete subprocess model completing `exit 3`
with exit code 3 and empty streams yields the formatted error output
containing the substring `3`. -/
theorem execute_outcome_mapping_witness :
    execute_command demoRun "exit 3" = "Error (code 3):\n" ∧
    strContains (execute_command demoRun "exit 3") "3" = true :=
  execute_outcome_mapping.2.2 demoRun rfl

/-- Claim C6: when the decoded reply is a dictionary with a non-empty
string command and a string explanation, `generate_command` returns the
parsed dictionary itself, and its `CommandSuggestion` view has the parsed
command and explanation, safe equal to a parsed boolean safe value and
true when the safe key is absent, and warning equal to the parsed warning
string and absent when the warning key is absent. -/
theorem synthesize_parsed_fields (loads : String → Except String Json)
    (reply : String) (fields : List (String × Json)) (c e : String)
    (hparse : loads (pyStrip reply) = Except.ok (Json.obj fields))
    (hc : jlookup fields "command" = some (Json.str c)) (hne : c ≠ "")
    (he : jlookup fields "explanation" = some (Json.str e)) :
    generate_command loads (Except.ok reply) = Json.obj fields ∧
    ∃ sug, toSuggestion (Json.obj fields) = some sug ∧
      sug.command = c ∧ sug.explanation = e ∧
      (∀ b, jlookup fields "safe" = some (Json.bool b) → sug.safe = b) ∧
      (jlookup fields "safe" = none → sug.safe = true) ∧
      (∀ w, jlookup fields "warning" = some (Json.str w) →
        sug.warning = some w) ∧
      (jlookup fields "warning" = none → sug.warning = none) := by
  constructor
  · simp [generate_command, hparse]
  · refine ⟨⟨c, e, truthy ((jlookup fields "safe").getD (Json.bool true)),
      (jlookup fields "warning").bind asString⟩,
      by simp [toSuggestion, hc, he], rfl, rfl, ?_, ?_, ?_, ?_⟩
    · intro b hb
      simp [hb, truthy]
    · intro hb
      simp [hb, truthy]
    · intro w hw
      simp [hw, asString]
    · intro hw
      simp [hw]

/-- Claim C6 witness: a concrete decoded dictionary with only command and
explanation keys is returned verbatim and views as a suggestion with the
parsed fields, safe defaulted to true and warning absent. -/
theorem synthesize_parsed_fields_witness :
    generate_command demoLoads (Except.ok "RAW") = Json.obj demoFields ∧
    toSuggestion (Json.obj demoFields) = some
      { command := "ls -la", explanation := "Lists files.",
        safe := true, warning := none } := by
  have h := synthesize_parsed_fields demoLoads "RAW" demoFields
    "ls -la" "Lists files." rfl rfl (by decide) rfl
  exact ⟨h.1, rfl⟩

/-- Claim C7: a backend reply whose stripped text is a decodable
brace-delimited object surrounded by brace-free extra prose yields, via the
greedy first-open-brace to last-close-brace extraction, the same result as
the reply consisting of the object alone. -/
theorem bracket_extraction_recovers (loads : String → Except String Json)
    (reply pre obj suf : String) (mid : List Char) (v : Json) (e1 : String)
    (hobj : obj = String.mk ('\x7b' :: mid ++ ['\x7d']))
    (htrim : pyStrip reply = pre ++ obj ++ suf)
    (hpre : '\x7b' ∉ pre.data) (hsuf : '\x7d' ∉ suf.data)
    (hfull : loads (pyStrip reply) = Except.error e1)
    (hobjstrip : pyStrip obj = obj)
    (hv : loads obj = Except.ok v) :
    generate_command loads (Except.ok reply) = v ∧
    generate_command loads (Except.ok obj) = v := by
  constructor
  · have hext : extractBraces (pyStrip reply) = some obj := by
      rw [htrim, hobj]
      exact extractBraces_embed pre suf mid hpre hsuf
    simp [generate_command, hfull, hext, hv]
  · simp [generate_command, hobjstrip, hv]

/-- Claim C7 witness: a concrete reply embedding the demo object between
prose recovers the same decoded dictionary as the object alone. -/
theorem bracket_extraction_recovers_witness :
    generate_command bracedLoads
        (Except.ok ("Sure: " ++ demoObjText ++ " done"))
      = Json.obj [("command", Json.str "pwd"),
          ("explanation", Json.str "Prints the working directory.")] ∧
    generate_command bracedLoads (Except.ok demoObjText)
      = Json.obj [("command", Json.str "pwd"),
          ("explanation", Json.str "Prints the working directory.")] :=
  bracket_extraction_recovers bracedLoads
    ("Sure: " ++ demoObjText ++ " done") "Sure: " demoObjText " done"
    ("\"command\": \"pwd\"".data)
    (Json.obj [("command", Json.str "pwd"),
      ("explanation", Json.str "Prints the working directory.")])
    "Expecting value"
    rfl (by decide) (by decide) (by decide) rfl (by decide) rfl

/-- Claim C8 evaluation: the reply `42` decodes to a bare JSON number, and
`generate_command` returns that number verbatim: the returned value is not
a dictionary and has no `CommandSuggestion` view, contradicting the claim
that synthesis always returns a value of the CommandSuggestion shape. -/
theorem synthesize_nonobject_passthrough :
    generate_command loads42 (Except.ok "42") = Json.num 42 ∧
    isDict (generate_command loads42 (Except.ok "42")) = false ∧
    toSuggestion (generate_command loads42 (Except.ok "42")) = none :=
  ⟨rfl, rfl, rfl⟩

/-- Claim C10 (implicit): an interactive-loop query that strips to the
empty string and is not an exit token is skipped: no processing, no
backend call, no output for that iteration. -/
theorem blank_query_skipped (q : String) (hblank : pyStrip q = "")
    (hexit : ¬ (pyLower q = "exit" ∨ pyLower q = "quit" ∨ pyLower q = "q")) :
    main_loop_step q = LoopAction.skip := by
  simp [main_loop_step, hexit, hblank]

/-- Claim C10 witness: a whitespace-only query is skipped. -/
theorem blank_query_skipped_witness :
    main_loop_step "   " = LoopAction.skip :=
  blank_query_skipped "   " rfl (by decide)
